import Mathlib

/-!
Shallow embedding of the intraday analysis core of `daily_stock_analysis`:
the signal filter (`src/core/signal_filter.py`), the intraday pipeline
(`src/core/intraday_pipeline.py`) and the intraday scheduler
(`src/intraday_scheduler.py`), together with theorems settling the
behavioural claims about them.

Modelling conventions:
- Python `datetime` instants are rationals (seconds); elapsed time between
  two instants is their difference.
- Python `float` fields (volume ratio, RSI, prices) are rationals; scores
  are integers (`int` in the source).
- The filter's mutable `_last_notifications` dict is an explicit map
  `String → Option NotificationRecord` threaded through `should_notify`.
- External collaborators (quote fetcher, history store, analyzer, holiday
  calendar, scheduled task) are oracle functions returning `Except`, so a
  thrown Python exception is an `Except.error`.
-/

namespace StockCore

/-- Modelled from the spec: the signal classification enum `BuySignal` of
`src/stock_analyzer.py` (not part of the analysed core); the spec's glossary
lists strongest-buy, buy, hold, sell, strongest-sell, wait, and the filter
source references exactly these six members. -/
inductive BuySignal where
  | STRONG_BUY
  | BUY
  | HOLD
  | WAIT
  | SELL
  | STRONG_SELL
deriving DecidableEq, Repr

/-- Python `signal.name` for the modelled `BuySignal` members. -/
def BuySignal.name : BuySignal → String
  | .STRONG_BUY => "STRONG_BUY"
  | .BUY => "BUY"
  | .HOLD => "HOLD"
  | .WAIT => "WAIT"
  | .SELL => "SELL"
  | .STRONG_SELL => "STRONG_SELL"

/-- Modelled from the spec: the MACD status enum of `src/stock_analyzer.py`
(not part of the analysed core). The filter only distinguishes the two
golden-cross variants and the death cross; every other member is collapsed
into `OTHER`. -/
inductive MACDStatus where
  | GOLDEN_CROSS_ZERO
  | GOLDEN_CROSS
  | DEATH_CROSS
  | OTHER
deriving DecidableEq, Repr

/-- Modelled from the spec: the trend status enum of `src/stock_analyzer.py`
(not part of the analysed core). The core only distinguishes
`CONSOLIDATION`; the remaining members are `BULL` (used in the source's own
test harness) and `OTHER`. -/
inductive TrendStatus where
  | BULL
  | CONSOLIDATION
  | OTHER
deriving DecidableEq, Repr

/-- `IntradayResult` dataclass of `src/core/signal_filter.py`. -/
structure IntradayResult where
  code : String
  stock_name : String
  timestamp : ℚ
  current_price : ℚ
  change_pct : ℚ
  trend_status : TrendStatus
  buy_signal : BuySignal
  signal_score : ℤ
  ma5 : ℚ
  ma10 : ℚ
  ma20 : ℚ
  bias_ma5 : ℚ
  volume_ratio : Option ℚ := none
  volume_status : Option String := none
  macd_status : Option MACDStatus := none
  rsi_12 : Option ℚ := none
  signal_reasons : List String := []
  risk_factors : List String := []
deriving DecidableEq, Repr

/-- One entry of `SignalFilter._last_notifications`:
`(timestamp, signal_type, signal_score)`. -/
structure NotificationRecord where
  time : ℚ
  signal : BuySignal
  score : ℤ
deriving DecidableEq, Repr

/-- The filter's `_last_notifications` dict, as a map from stock code to the
optional last-notification record. -/
abbrev NotifyMap := String → Option NotificationRecord

/-- The empty `_last_notifications` dict. -/
def emptyNotifyMap : NotifyMap := fun _ => none

/-- Configuration of `SignalFilter.__init__`: score threshold (default 60),
volume alert multiple (default 3.0), minimum notify interval in seconds
(default 1800) and the allowed signal-type names (default
STRONG_BUY, BUY, STRONG_SELL). -/
structure SignalFilter where
  notify_threshold : ℤ := 60
  volume_alert : ℚ := 3
  min_notify_interval : ℚ := 1800
  allowed_signal_types : List String := ["STRONG_BUY", "BUY", "STRONG_SELL"]

/-- The default filter configuration. -/
def defaultFilter : SignalFilter := {}

/-- `SignalFilter._record_notification`: overwrite the symbol's entry with
`(now, signal, score)`. -/
def _record_notification (st : NotifyMap) (code : String) (now : ℚ)
    (signal : BuySignal) (score : ℤ) : NotifyMap :=
  Function.update st code (some ⟨now, signal, score⟩)

/-- Rule 2 of `should_notify`:
`result.volume_ratio and result.volume_ratio > self.volume_alert`
(Python truthiness: `None` and `0.0` are falsy). -/
def volumeTrigger (f : SignalFilter) (r : IntradayResult) : Bool :=
  match r.volume_ratio with
  | none => false
  | some v => decide (v ≠ 0) && decide (f.volume_alert < v)

/-- Rule 3 of `should_notify`: MACD status is one of
`GOLDEN_CROSS_ZERO`, `GOLDEN_CROSS`, `DEATH_CROSS`. -/
def macdTrigger (r : IntradayResult) : Bool :=
  match r.macd_status with
  | none => false
  | some m =>
      decide (m = MACDStatus.GOLDEN_CROSS_ZERO ∨ m = MACDStatus.GOLDEN_CROSS
        ∨ m = MACDStatus.DEATH_CROSS)

/-- Rule 4 of `should_notify`, oversold branch: RSI present and `< 30`. -/
def rsiOversold (r : IntradayResult) : Bool :=
  match r.rsi_12 with
  | none => false
  | some v => decide (v < 30)

/-- Rule 4 of `should_notify`, overbought branch: RSI present and `> 70`. -/
def rsiOverbought (r : IntradayResult) : Bool :=
  match r.rsi_12 with
  | none => false
  | some v => decide (70 < v)

/-- Rule 4 of `should_notify`: RSI present and `< 30` or `> 70`. -/
def rsiTrigger (r : IntradayResult) : Bool :=
  rsiOversold r || rsiOverbought r

/-- Rule 5 of `should_notify` (dedup): a prior record exists, elapsed time
since it is below `min_notify_interval`, the signal is unchanged and the
absolute score change is `< 15`. -/
def dedupSuppressed (f : SignalFilter) (st : NotifyMap) (now : ℚ)
    (code : String) (signal : BuySignal) (score : ℤ) : Bool :=
  match st code with
  | none => false
  | some pr =>
      decide (now - pr.time < f.min_notify_interval)
        && decide (signal = pr.signal)
        && decide ((score - pr.score).natAbs < 15)

/-- Rule 8 of `should_notify`: signal is HOLD or WAIT, a prior record exists
and the absolute score change from it is `< 15`. -/
def holdWaitSuppressed (st : NotifyMap) (code : String)
    (signal : BuySignal) (score : ℤ) : Bool :=
  (decide (signal = BuySignal.HOLD) || decide (signal = BuySignal.WAIT))
    && match st code with
       | none => false
       | some pr => decide ((score - pr.score).natAbs < 15)

/-- `SignalFilter._is_signal_reversal`: buy family is
{STRONG_BUY, BUY}, sell family is {STRONG_SELL, SELL}; a reversal is a
transition from one family to the other. -/
def _is_signal_reversal (old_signal new_signal : BuySignal) : Bool :=
  let old_is_buy := decide (old_signal = BuySignal.STRONG_BUY ∨ old_signal = BuySignal.BUY)
  let new_is_buy := decide (new_signal = BuySignal.STRONG_BUY ∨ new_signal = BuySignal.BUY)
  let old_is_sell := decide (old_signal = BuySignal.STRONG_SELL ∨ old_signal = BuySignal.SELL)
  let new_is_sell := decide (new_signal = BuySignal.STRONG_SELL ∨ new_signal = BuySignal.SELL)
  (old_is_buy && new_is_sell) || (old_is_sell && new_is_buy)

/-- Rule 10 of `should_notify`: a prior record exists and the new signal is
a reversal relative to the recorded one. -/
def reversalFires (st : NotifyMap) (code : String) (signal : BuySignal) : Bool :=
  match st code with
  | none => false
  | some pr => _is_signal_reversal pr.signal signal

/-- `SignalFilter.should_notify`, with the mutable notification map threaded
explicitly: given the configuration, the current map, the current instant
and the result, return the decision and the updated map. The branches follow
the source's rules 1-10 in order; every `return True` path first calls
`_record_notification`. -/
def should_notify (f : SignalFilter) (st : NotifyMap) (now : ℚ)
    (r : IntradayResult) : Bool × NotifyMap :=
  if r.buy_signal = BuySignal.STRONG_BUY then
    (true, _record_notification st r.code now r.buy_signal r.signal_score)
  else if r.buy_signal = BuySignal.STRONG_SELL then
    (true, _record_notification st r.code now r.buy_signal r.signal_score)
  else if volumeTrigger f r then
    (true, _record_notification st r.code now r.buy_signal r.signal_score)
  else if macdTrigger r then
    (true, _record_notification st r.code now r.buy_signal r.signal_score)
  else if rsiTrigger r then
    (true, _record_notification st r.code now r.buy_signal r.signal_score)
  else if dedupSuppressed f st now r.code r.buy_signal r.signal_score then
    (false, st)
  else if r.signal_score < f.notify_threshold then
    (false, st)
  else if BuySignal.name r.buy_signal ∉ f.allowed_signal_types then
    (false, st)
  else if holdWaitSuppressed st r.code r.buy_signal r.signal_score then
    (false, st)
  else if r.trend_status = TrendStatus.CONSOLIDATION then
    (false, st)
  else if reversalFires st r.code r.buy_signal then
    (true, _record_notification st r.code now r.buy_signal r.signal_score)
  else
    (true, _record_notification st r.code now r.buy_signal r.signal_score)

/-- `SignalFilter.clear_cache`: empty the whole notification map. -/
def clear_cache (_st : NotifyMap) : NotifyMap := emptyNotifyMap

/-! ## Intraday pipeline (`src/core/intraday_pipeline.py`) -/

/-- Real-time quote as consumed by `analyze_intraday`: name, price, percent
change and (when the source provides the attribute) the volume ratio. -/
structure RealtimeQuote where
  name : String
  price : ℚ
  change_pct : ℚ
  volume_ratio : Option ℚ := none
deriving DecidableEq, Repr

/-- Output of the external `StockTrendAnalyzer.analyze`, restricted to the
fields `analyze_intraday` copies into an `IntradayResult` (the enum `.value`
of the volume status is collapsed into the string itself). -/
structure TrendAnalysisOut where
  trend_status : TrendStatus
  buy_signal : BuySignal
  signal_score : ℤ
  ma5 : ℚ
  ma10 : ℚ
  ma20 : ℚ
  bias_ma5 : ℚ
  volume_status : Option String := none
  macd_status : Option MACDStatus := none
  rsi_12 : Option ℚ := none
  signal_reasons : List String := []
  risk_factors : List String := []
deriving DecidableEq, Repr

/-- External collaborators of the pipeline, as oracles over an abstract row
type for the stored historical bars. `Except.error` models a thrown Python
exception; `Option.none` models a falsy return (`None`, missing `raw_data`
key, or empty context dict). -/
structure PipelineEnv (Row : Type) where
  get_realtime_quote : String → Except String (Option RealtimeQuote)
  get_analysis_context : String → Except String (Option (List Row))
  analyze : List Row → String → Except String TrendAnalysisOut

/-- Body of the `try` block of `IntradayAnalysisPipeline.analyze_intraday`:
quote retrieval, history retrieval with the empty and `< 20` length checks,
analyzer invocation and result assembly. An `Except.error` is an exception
escaping the block. -/
def analyze_intraday_core {Row : Type} (env : PipelineEnv Row) (now : ℚ)
    (code : String) : Except String (Option IntradayResult) :=
  match env.get_realtime_quote code with
  | Except.error e => Except.error e
  | Except.ok none => Except.ok none
  | Except.ok (some quote) =>
    match env.get_analysis_context code with
    | Except.error e => Except.error e
    | Except.ok none => Except.ok none
    | Except.ok (some raw_data) =>
      if raw_data.isEmpty then Except.ok none
      else if raw_data.length < 20 then Except.ok none
      else
        match env.analyze raw_data code with
        | Except.error e => Except.error e
        | Except.ok tr =>
            Except.ok (some
              { code := code
                stock_name := quote.name
                timestamp := now
                current_price := quote.price
                change_pct := quote.change_pct
                trend_status := tr.trend_status
                buy_signal := tr.buy_signal
                signal_score := tr.signal_score
                ma5 := tr.ma5
                ma10 := tr.ma10
                ma20 := tr.ma20
                bias_ma5 := tr.bias_ma5
                volume_ratio := quote.volume_ratio
                volume_status := tr.volume_status
                macd_status := tr.macd_status
                rsi_12 := tr.rsi_12
                signal_reasons := tr.signal_reasons
                risk_factors := tr.risk_factors })

/-- `IntradayAnalysisPipeline.analyze_intraday`: the `try` body with the
catch-all `except` that converts any exception into `None`. -/
def analyze_intraday {Row : Type} (env : PipelineEnv Row) (now : ℚ)
    (code : String) : Option IntradayResult :=
  match analyze_intraday_core env now code with
  | Except.ok r => r
  | Except.error _ => none

/-- One iteration of the result-collection loop of
`IntradayAnalysisPipeline.run`: a failed or absent analysis is skipped; an
available result is passed to `should_notify` and appended to the triggered
list exactly when the filter accepts it. -/
def runStep (f : SignalFilter) {Row : Type} (env : PipelineEnv Row) (now : ℚ)
    (acc : List IntradayResult × NotifyMap) (code : String) :
    List IntradayResult × NotifyMap :=
  match analyze_intraday env now code with
  | none => acc
  | some r =>
      let p := should_notify f acc.2 now r
      if p.1 then (acc.1 ++ [r], p.2) else (acc.1, p.2)

/-- `IntradayAnalysisPipeline.run`: the empty watchlist returns immediately;
otherwise every symbol is analysed and the filter-accepted results are
collected. The thread pool's nondeterministic completion order is modelled
by processing the list in order; the claims proved below are insensitive to
that order. -/
def run (f : SignalFilter) {Row : Type} (env : PipelineEnv Row) (now : ℚ)
    (st0 : NotifyMap) (stock_codes : List String) :
    List IntradayResult × NotifyMap :=
  if stock_codes = [] then ([], st0)
  else stock_codes.foldl (runStep f env now) ([], st0)

/-! ## Intraday scheduler (`src/intraday_scheduler.py`) -/

/-- A calendar date as the scheduler consumes it: only its Python
`weekday()` (0 = Monday ... 6 = Sunday) and its identity for the holiday
calendar matter. -/
structure DateModel where
  weekday : ℕ
deriving DecidableEq, Repr

/-- `IntradayScheduler` state relevant to trading-day detection: the
detection mode string and the optionally loaded `chinese_calendar` module,
modelled as an `is_workday` oracle that may throw. -/
structure IntradayScheduler where
  holiday_detection : String
  chinese_calendar : Option (DateModel → Except String Bool) := none

/-- `IntradayScheduler.is_trading_day`: simple mode checks `weekday < 5`;
advanced mode consults the calendar oracle and falls back to the weekday
check when the lookup throws or the module is absent. -/
def is_trading_day (s : IntradayScheduler) (date : DateModel) : Bool :=
  if s.holiday_detection = "simple" then
    decide (date.weekday < 5)
  else
    match s.chinese_calendar with
    | some cal =>
        match cal date with
        | Except.ok is_workday => is_workday
        | Except.error _ => decide (date.weekday < 5)
    | none => decide (date.weekday < 5)

/-- A scheduled task over an abstract effect state `σ`: running it yields
the state after its side effects together with `some` error message when it
raised partway through, or `none` when it completed normally. -/
def TaskModel (σ : Type) := σ → σ × Option String

/-- `IntradayScheduler._safe_run_task`: no-op without a registered callback
or on a non-trading day; otherwise the task runs and any exception it raises
is caught, so the runner itself never propagates an error upward. -/
def _safe_run_task {σ : Type} (s : IntradayScheduler)
    (task : Option (TaskModel σ)) (date : DateModel) (st : σ) :
    Except String σ :=
  match task with
  | none => Except.ok st
  | some t =>
      if is_trading_day s date then Except.ok (t st).1
      else Except.ok st

/-- The scheduler's run loop restricted to the ticks on which a job is due:
each due tick executes `_safe_run_task`, and an error escaping the runner
would abort the loop. -/
def run_ticks {σ : Type} (s : IntradayScheduler) (task : Option (TaskModel σ)) :
    List DateModel → σ → Except String σ
  | [], st => Except.ok st
  | d :: ds, st =>
      match _safe_run_task s task d st with
      | Except.ok st2 => run_ticks s task ds st2
      | Except.error e => Except.error e

/-! ## Concrete fixtures for witnesses and counterexamples -/

/-- A minimal concrete `IntradayResult` with the given code, signal, score
and trend; all optional indicator fields absent. -/
def sampleResult (code : String) (signal : BuySignal) (score : ℤ)
    (trend : TrendStatus) : IntradayResult :=
  { code := code
    stock_name := "sample"
    timestamp := 0
    current_price := 10
    change_pct := 0
    trend_status := trend
    buy_signal := signal
    signal_score := score
    ma5 := 1
    ma10 := 1
    ma20 := 1
    bias_ma5 := 0 }

/-- A concrete result carrying only an RSI value among the optional
indicators. -/
def sampleWithRsi (v : ℚ) : IntradayResult :=
  { sampleResult "000001" BuySignal.HOLD 40 TrendStatus.BULL with
      rsi_12 := some v }

/-- A concrete real-time quote. -/
def qW : RealtimeQuote := { name := "sample", price := 10, change_pct := 0 }

/-- A concrete analyzer verdict: BUY with score 70, no optional fields. -/
def trW : TrendAnalysisOut :=
  { trend_status := TrendStatus.BULL
    buy_signal := BuySignal.BUY
    signal_score := 70
    ma5 := 1
    ma10 := 1
    ma20 := 1
    bias_ma5 := 0 }

/-- A pipeline environment whose history store holds `rows` bars for every
symbol, with quote and analyzer always succeeding. -/
def envOf (rows : ℕ) : PipelineEnv ℕ :=
  { get_realtime_quote := fun _ => Except.ok (some qW)
    get_analysis_context := fun _ => Except.ok (some (List.range rows))
    analyze := fun _ _ => Except.ok trW }

/-- A pipeline environment where quote retrieval throws for every symbol
except "600519". -/
def envPart : PipelineEnv ℕ :=
  { get_realtime_quote := fun c =>
      if c = "600519" then Except.ok (some qW) else Except.error "quote source down"
    get_analysis_context := fun _ => Except.ok (some (List.range 30))
    analyze := fun _ _ => Except.ok trW }

/-- The result `analyze_intraday (envOf 30) 0 "600519"` assembles. -/
def resultW : IntradayResult :=
  sampleResult "600519" BuySignal.BUY 70 TrendStatus.BULL

/-- A filter configuration whose allow-list also admits plain SELL
signals. -/
def filterSellOk : SignalFilter :=
  { allowed_signal_types := ["STRONG_BUY", "BUY", "STRONG_SELL", "SELL"] }

/-- A notification map holding one record: symbol "600519" was notified at
instant 0 with signal BUY and score 80. -/
def stPriorBuy : NotifyMap :=
  _record_notification emptyNotifyMap "600519" 0 BuySignal.BUY 80

/-- A scheduler in advanced mode whose holiday-calendar lookup always
throws. -/
def schedAdvFail : IntradayScheduler :=
  { holiday_detection := "advanced"
    chinese_calendar := some (fun _ => Except.error "lookup failed") }

/-- A scheduler in simple weekend-only mode. -/
def schedSimple : IntradayScheduler := { holiday_detection := "simple" }

/-- A concrete task over `ℕ` that performs one side effect (increments the
state) and then raises. -/
def taskBoom : TaskModel ℕ := fun n => (n + 1, some "boom")

/-! ## Helper lemmas -/

/-- `should_notify` either notifies and overwrites the symbol's record with
`(now, signal, score)`, or suppresses and leaves the map untouched. -/
theorem should_notify_cases (f : SignalFilter) (st : NotifyMap) (now : ℚ)
    (r : IntradayResult) :
    should_notify f st now r
        = (true, _record_notification st r.code now r.buy_signal r.signal_score)
      ∨ should_notify f st now r = (false, st) := by
  unfold should_notify
  by_cases h1 : r.buy_signal = BuySignal.STRONG_BUY
  · rw [if_pos h1]; exact Or.inl rfl
  rw [if_neg h1]
  by_cases h2 : r.buy_signal = BuySignal.STRONG_SELL
  · rw [if_pos h2]; exact Or.inl rfl
  rw [if_neg h2]
  by_cases h3 : volumeTrigger f r = true
  · rw [if_pos h3]; exact Or.inl rfl
  rw [if_neg h3]
  by_cases h4 : macdTrigger r = true
  · rw [if_pos h4]; exact Or.inl rfl
  rw [if_neg h4]
  by_cases h5 : rsiTrigger r = true
  · rw [if_pos h5]; exact Or.inl rfl
  rw [if_neg h5]
  by_cases h6 : dedupSuppressed f st now r.code r.buy_signal r.signal_score = true
  · rw [if_pos h6]; exact Or.inr rfl
  rw [if_neg h6]
  by_cases h7 : r.signal_score < f.notify_threshold
  · rw [if_pos h7]; exact Or.inr rfl
  rw [if_neg h7]
  by_cases h8 : r.buy_signal.name ∉ f.allowed_signal_types
  · rw [if_pos h8]; exact Or.inr rfl
  rw [if_neg h8]
  by_cases h9 : holdWaitSuppressed st r.code r.buy_signal r.signal_score = true
  · rw [if_pos h9]; exact Or.inr rfl
  rw [if_neg h9]
  by_cases h10 : r.trend_status = TrendStatus.CONSOLIDATION
  · rw [if_pos h10]; exact Or.inr rfl
  rw [if_neg h10]
  by_cases h11 : reversalFires st r.code r.buy_signal = true
  · rw [if_pos h11]; exact Or.inl rfl
  rw [if_neg h11]; exact Or.inl rfl

/-- When `should_notify` accepts, the updated map holds the new record. -/
theorem should_notify_snd_of_true (f : SignalFilter) (st : NotifyMap) (now : ℚ)
    (r : IntradayResult) (h : (should_notify f st now r).1 = true) :
    (should_notify f st now r).2
      = _record_notification st r.code now r.buy_signal r.signal_score := by
  rcases should_notify_cases f st now r with hc | hc
  · rw [hc]
  · rw [hc] at h; simp at h

/-! ## Claim theorems -/

/-- C3: for every configuration, notification map, instant and result whose
signal is STRONG_BUY or STRONG_SELL, `should_notify` returns true — rules 1
and 2 fire before the score, volume, trend, allow-list and dedup checks. -/
theorem strong_signals_always_notify (f : SignalFilter) (st : NotifyMap)
    (now : ℚ) (r : IntradayResult)
    (h : r.buy_signal = BuySignal.STRONG_BUY ∨ r.buy_signal = BuySignal.STRONG_SELL) :
    (should_notify f st now r).1 = true := by
  unfold should_notify
  rcases h with h | h
  · rw [if_pos h]
  · rw [if_neg (h ▸ (by decide : ¬ BuySignal.STRONG_SELL = BuySignal.STRONG_BUY) :
        ¬ r.buy_signal = BuySignal.STRONG_BUY), if_pos h]

/-- Witness for C3: a STRONG_SELL result with a low score, a stale-free map
and the default configuration notifies. -/
theorem strong_signals_always_notify_witness :
    (should_notify defaultFilter emptyNotifyMap 0
      (sampleResult "600519" BuySignal.STRONG_SELL 10 TrendStatus.CONSOLIDATION)).1 = true :=
  strong_signals_always_notify defaultFilter emptyNotifyMap 0
    (sampleResult "600519" BuySignal.STRONG_SELL 10 TrendStatus.CONSOLIDATION)
    (Or.inr rfl)

/-- C4: `should_notify` returns true exactly when it overwrites the record
of the result's symbol with `(now, signal, score)`; on a false answer the
map is unchanged, and entries of other symbols are never modified. -/
theorem notify_record_frame (f : SignalFilter) (st : NotifyMap) (now : ℚ)
    (r : IntradayResult) :
    (((should_notify f st now r).1 = true
        ∧ (should_notify f st now r).2
            = Function.update st r.code (some ⟨now, r.buy_signal, r.signal_score⟩))
      ∨ ((should_notify f st now r).1 = false
        ∧ (should_notify f st now r).2 = st))
    ∧ ∀ c, c ≠ r.code → (should_notify f st now r).2 c = st c := by
  rcases should_notify_cases f st now r with hc | hc <;> rw [hc]
  · refine ⟨Or.inl ⟨rfl, rfl⟩, fun c hcne => ?_⟩
    exact Function.update_noteq hcne _ st
  · exact ⟨Or.inr ⟨rfl, rfl⟩, fun c _ => rfl⟩

/-- Witness for C4: evaluation at a concrete accepted result; the entry of
the untouched symbol "000001" is unchanged. -/
theorem notify_record_frame_witness :
    (((should_notify defaultFilter emptyNotifyMap 0 resultW).1 = true
        ∧ (should_notify defaultFilter emptyNotifyMap 0 resultW).2
            = Function.update emptyNotifyMap resultW.code
                (some ⟨0, resultW.buy_signal, resultW.signal_score⟩))
      ∨ ((should_notify defaultFilter emptyNotifyMap 0 resultW).1 = false
        ∧ (should_notify defaultFilter emptyNotifyMap 0 resultW).2 = emptyNotifyMap))
    ∧ (should_notify defaultFilter emptyNotifyMap 0 resultW).2 "000001"
        = emptyNotifyMap "000001" :=
  ⟨(notify_record_frame defaultFilter emptyNotifyMap 0 resultW).1,
   (notify_record_frame defaultFilter emptyNotifyMap 0 resultW).2 "000001" (by decide)⟩

/-- C10: the empty watchlist short-circuits: `run` yields the empty result
list and the notification map exactly as it was. -/
theorem run_empty_watchlist (f : SignalFilter) {Row : Type}
    (env : PipelineEnv Row) (now : ℚ) (st0 : NotifyMap) :
    run f env now st0 [] = ([], st0) := rfl

unseal Rat.sub in
/-- C1 counterexample: with the default configuration, after an accepted
BUY notification for "600519" (score 80), a plain SELL result for the same
symbol with score 50 (below the threshold 60) and no volume-ratio, MACD or
RSI trigger is suppressed by the score-threshold rule, which runs before
the reversal rule — the claim asserts it would notify. -/
theorem reversal_below_threshold_counterexample :
    (should_notify defaultFilter emptyNotifyMap 0
        (sampleResult "600519" BuySignal.BUY 80 TrendStatus.BULL)).1 = true
    ∧ (should_notify defaultFilter
        (should_notify defaultFilter emptyNotifyMap 0
          (sampleResult "600519" BuySignal.BUY 80 TrendStatus.BULL)).2
        60 (sampleResult "600519" BuySignal.SELL 50 TrendStatus.BULL)).1 = false :=
  ⟨rfl, rfl⟩

/-- C1 (amended): with a prior buy-family record, a sell-family result
notifies provided it survives the suppressors that run before the reversal
rule: either the new signal is STRONG_SELL (rule 2 fires unconditionally),
or the new score meets the threshold, the signal name is allow-listed and
the trend is not consolidation. -/
theorem reversal_notify_amended (f : SignalFilter) (st : NotifyMap) (now : ℚ)
    (r : IntradayResult) (pr : NotificationRecord)
    (hpr : st r.code = some pr)
    (hbuy : pr.signal = BuySignal.STRONG_BUY ∨ pr.signal = BuySignal.BUY)
    (hsell : r.buy_signal = BuySignal.STRONG_SELL ∨ r.buy_signal = BuySignal.SELL)
    (hpass : r.buy_signal = BuySignal.STRONG_SELL
      ∨ (f.notify_threshold ≤ r.signal_score
         ∧ r.buy_signal.name ∈ f.allowed_signal_types
         ∧ r.trend_status ≠ TrendStatus.CONSOLIDATION)) :
    (should_notify f st now r).1 = true := by
  rcases hsell with hsig | hsig
  · have hne1 : ¬ r.buy_signal = BuySignal.STRONG_BUY := by rw [hsig]; decide
    unfold should_notify
    rw [if_neg hne1, if_pos hsig]
  · rcases hpass with hp | ⟨hscore, hallow, htrend⟩
    · rw [hsig] at hp; exact absurd hp (by decide)
    · have hne1 : ¬ r.buy_signal = BuySignal.STRONG_BUY := by rw [hsig]; decide
      have hne2 : ¬ r.buy_signal = BuySignal.STRONG_SELL := by rw [hsig]; decide
      unfold should_notify
      rw [if_neg hne1, if_neg hne2]
      by_cases h3 : volumeTrigger f r = true
      · rw [if_pos h3]
      rw [if_neg h3]
      by_cases h4 : macdTrigger r = true
      · rw [if_pos h4]
      rw [if_neg h4]
      by_cases h5 : rsiTrigger r = true
      · rw [if_pos h5]
      rw [if_neg h5]
      have h6 : ¬ dedupSuppressed f st now r.code r.buy_signal r.signal_score = true := by
        unfold dedupSuppressed
        rw [hpr]
        rcases hbuy with hb | hb <;> simp [hsig, hb]
      rw [if_neg h6]
      rw [if_neg (not_lt.mpr hscore)]
      rw [if_neg (not_not_intro hallow)]
      have h9 : ¬ holdWaitSuppressed st r.code r.buy_signal r.signal_score = true := by
        unfold holdWaitSuppressed
        simp [hsig]
      rw [if_neg h9]
      rw [if_neg htrend]
      by_cases h11 : reversalFires st r.code r.buy_signal = true
      · rw [if_pos h11]
      · rw [if_neg h11]

/-- Witness for amended C1: with SELL allow-listed, a SELL of score 75
after a recorded BUY notifies through the reversal path. -/
theorem reversal_notify_amended_witness :
    stPriorBuy "600519" = some ⟨0, BuySignal.BUY, 80⟩
    ∧ (should_notify filterSellOk stPriorBuy 60
        (sampleResult "600519" BuySignal.SELL 75 TrendStatus.BULL)).1 = true :=
  ⟨rfl,
   reversal_notify_amended filterSellOk stPriorBuy 60
     (sampleResult "600519" BuySignal.SELL 75 TrendStatus.BULL)
     ⟨0, BuySignal.BUY, 80⟩ rfl (Or.inr rfl) (Or.inr rfl)
     (Or.inr ⟨by decide, by decide, by decide⟩)⟩

/-- C2 counterexample: an identical STRONG_BUY result notifies on both of
two immediately successive calls — rule 1 runs before the dedup window, so
the second call is not suppressed as the claim asserts. -/
theorem dedup_second_call_counterexample :
    (should_notify defaultFilter emptyNotifyMap 0
        (sampleResult "600519" BuySignal.STRONG_BUY 85 TrendStatus.BULL)).1 = true
    ∧ (should_notify defaultFilter
        (should_notify defaultFilter emptyNotifyMap 0
          (sampleResult "600519" BuySignal.STRONG_BUY 85 TrendStatus.BULL)).2
        1 (sampleResult "600519" BuySignal.STRONG_BUY 85 TrendStatus.BULL)).1 = true :=
  ⟨rfl, rfl⟩

/-- C2 (amended): after an accepted notification, an immediately following
call (within the minimum notify interval) for the same symbol, with the
same signal classification and a score within 15 points, is suppressed by
the dedup rule provided the second result does not hit one of the
unconditional rules that run first (STRONG_BUY/STRONG_SELL signal, volume
trigger, MACD trigger, RSI trigger). -/
theorem dedup_second_call_amended (f : SignalFilter) (st : NotifyMap)
    (t1 t2 : ℚ) (r r2 : IntradayResult)
    (h1 : (should_notify f st t1 r).1 = true)
    (hcode : r2.code = r.code)
    (hsig : r2.buy_signal = r.buy_signal)
    (hscore : (r2.signal_score - r.signal_score).natAbs < 15)
    (htime : t2 - t1 < f.min_notify_interval)
    (hnb : ¬ r2.buy_signal = BuySignal.STRONG_BUY)
    (hns : ¬ r2.buy_signal = BuySignal.STRONG_SELL)
    (hv : volumeTrigger f r2 = false)
    (hm : macdTrigger r2 = false)
    (hrsi : rsiTrigger r2 = false) :
    (should_notify f (should_notify f st t1 r).2 t2 r2).1 = false := by
  have hst : (should_notify f st t1 r).2
      = _record_notification st r.code t1 r.buy_signal r.signal_score :=
    should_notify_snd_of_true f st t1 r h1
  rw [hst]
  have hrec : _record_notification st r.code t1 r.buy_signal r.signal_score r2.code
      = some ⟨t1, r.buy_signal, r.signal_score⟩ := by
    unfold _record_notification
    rw [hcode]
    exact Function.update_same _ _ _
  unfold should_notify
  rw [if_neg hnb, if_neg hns]
  rw [if_neg (by simp [hv] : ¬ volumeTrigger f r2 = true)]
  rw [if_neg (by simp [hm] : ¬ macdTrigger r2 = true)]
  rw [if_neg (by simp [hrsi] : ¬ rsiTrigger r2 = true)]
  have h6 : dedupSuppressed f
      (_record_notification st r.code t1 r.buy_signal r.signal_score)
      t2 r2.code r2.buy_signal r2.signal_score = true := by
    unfold dedupSuppressed
    rw [hrec]
    simp [htime, hsig, hscore]
  rw [if_pos h6]

unseal Rat.sub in
/-- Witness for amended C2: a BUY of score 70 notifies; one minute later a
BUY of score 75 for the same symbol (delta 5, no unconditional trigger) is
suppressed. -/
theorem dedup_second_call_amended_witness :
    (should_notify defaultFilter emptyNotifyMap 0
        (sampleResult "300750" BuySignal.BUY 70 TrendStatus.BULL)).1 = true
    ∧ (should_notify defaultFilter
        (should_notify defaultFilter emptyNotifyMap 0
          (sampleResult "300750" BuySignal.BUY 70 TrendStatus.BULL)).2
        60 (sampleResult "300750" BuySignal.BUY 75 TrendStatus.BULL)).1 = false :=
  ⟨rfl,
   dedup_second_call_amended defaultFilter emptyNotifyMap 0 60
     (sampleResult "300750" BuySignal.BUY 70 TrendStatus.BULL)
     (sampleResult "300750" BuySignal.BUY 75 TrendStatus.BULL)
     rfl rfl rfl (by decide) (by decide) (by decide) (by decide) rfl rfl rfl⟩

/-- C7: the RSI rule uses strict comparisons. For a result carrying RSI
value `v`: at exactly 30 or 70 the rule does not fire; 29.9 fires the
oversold branch only and 70.1 the overbought branch only; and whenever the
rule fires and no earlier rule applies, `should_notify` returns true. -/
theorem rsi_strict_boundaries (f : SignalFilter) (st : NotifyMap) (now : ℚ)
    (r : IntradayResult) (v : ℚ) (hv : r.rsi_12 = some v) :
    ((v = 30 ∨ v = 70) → rsiTrigger r = false)
    ∧ (v = 299/10 → rsiOversold r = true ∧ rsiOverbought r = false)
    ∧ (v = 701/10 → rsiOverbought r = true ∧ rsiOversold r = false)
    ∧ (rsiTrigger r = true → ¬ r.buy_signal = BuySignal.STRONG_BUY →
        ¬ r.buy_signal = BuySignal.STRONG_SELL → volumeTrigger f r = false →
        macdTrigger r = false → (should_notify f st now r).1 = true) := by
  refine ⟨?_, ?_, ?_, ?_⟩
  · rintro (h | h) <;> subst h <;>
      simp [rsiTrigger, rsiOversold, rsiOverbought, hv] <;> norm_num
  · intro h
    subst h
    constructor <;> simp [rsiOversold, rsiOverbought, hv] <;> norm_num
  · intro h
    subst h
    constructor <;> simp [rsiOversold, rsiOverbought, hv] <;> norm_num
  · intro ht hnb hns hvol hm
    unfold should_notify
    rw [if_neg hnb, if_neg hns]
    rw [if_neg (by simp [hvol] : ¬ volumeTrigger f r = true)]
    rw [if_neg (by simp [hm] : ¬ macdTrigger r = true)]
    rw [if_pos ht]

unseal Rat.mul Rat.inv in
/-- Witness for C7: RSI exactly 30 and exactly 70 do not fire the rule;
29.9 fires oversold, 70.1 fires overbought, and a HOLD result with RSI 29.9
notifies through the RSI rule. -/
theorem rsi_strict_boundaries_witness :
    rsiTrigger (sampleWithRsi 30) = false
    ∧ rsiTrigger (sampleWithRsi 70) = false
    ∧ (rsiOversold (sampleWithRsi (299/10)) = true
        ∧ rsiOverbought (sampleWithRsi (299/10)) = false)
    ∧ (rsiOverbought (sampleWithRsi (701/10)) = true
        ∧ rsiOversold (sampleWithRsi (701/10)) = false)
    ∧ (should_notify defaultFilter emptyNotifyMap 0 (sampleWithRsi (299/10))).1 = true :=
  ⟨(rsi_strict_boundaries defaultFilter emptyNotifyMap 0 (sampleWithRsi 30) 30 rfl).1
      (Or.inl rfl),
   (rsi_strict_boundaries defaultFilter emptyNotifyMap 0 (sampleWithRsi 70) 70 rfl).1
      (Or.inr rfl),
   (rsi_strict_boundaries defaultFilter emptyNotifyMap 0 (sampleWithRsi (299/10))
      (299/10) rfl).2.1 rfl,
   (rsi_strict_boundaries defaultFilter emptyNotifyMap 0 (sampleWithRsi (701/10))
      (701/10) rfl).2.2.1 rfl,
   (rsi_strict_boundaries defaultFilter emptyNotifyMap 0 (sampleWithRsi (299/10))
      (299/10) rfl).2.2.2 (by decide) (by decide) (by decide) rfl rfl⟩

/-- C8: in advanced mode, when the holiday-calendar lookup throws,
`is_trading_day` falls back to weekday logic: it returns true exactly when
the weekday is Monday through Friday (weekday < 5), and never raises. -/
theorem trading_day_advanced_fallback (s : IntradayScheduler)
    (cal : DateModel → Except String Bool) (d : DateModel) (e : String)
    (hmode : s.holiday_detection = "advanced")
    (hcal : s.chinese_calendar = some cal)
    (herr : cal d = Except.error e) :
    (is_trading_day s d = true ↔ d.weekday < 5) := by
  simp [is_trading_day, hmode, hcal, herr]

/-- Witness for C8: with an always-throwing calendar, a Wednesday (weekday
2) is a trading day and a Saturday (weekday 5) is not. -/
theorem trading_day_advanced_fallback_witness :
    schedAdvFail.holiday_detection = "advanced"
    ∧ (is_trading_day schedAdvFail ⟨2⟩ = true ↔ (DateModel.mk 2).weekday < 5)
    ∧ (is_trading_day schedAdvFail ⟨5⟩ = true ↔ (DateModel.mk 5).weekday < 5) :=
  ⟨rfl,
   trading_day_advanced_fallback schedAdvFail _ ⟨2⟩ "lookup failed" rfl rfl rfl,
   trading_day_advanced_fallback schedAdvFail _ ⟨5⟩ "lookup failed" rfl rfl rfl⟩

/-- C9: on a trading-day tick the safe runner invokes the task and returns
`Except.ok` with the task's final state even when the task raised; on a
non-trading-day tick the task is not invoked and the state is returned
untouched; and the run loop over any tick sequence never receives an
error from the runner. -/
theorem safe_task_isolation (σ : Type) (s : IntradayScheduler) (t : TaskModel σ)
    (d : DateModel) (st : σ) :
    (is_trading_day s d = true → _safe_run_task s (some t) d st = Except.ok (t st).1)
    ∧ (is_trading_day s d = false → _safe_run_task s (some t) d st = Except.ok st)
    ∧ (∀ (task : Option (TaskModel σ)) (ticks : List DateModel) (st0 : σ),
        ∃ stf, run_ticks s task ticks st0 = Except.ok stf) := by
  refine ⟨?_, ?_, ?_⟩
  · intro h
    simp [_safe_run_task, h]
  · intro h
    simp [_safe_run_task, h]
  · intro task ticks
    induction ticks with
    | nil => exact fun st0 => ⟨st0, rfl⟩
    | cons dd ds ih =>
      intro st0
      have hok : ∃ st2, _safe_run_task s task dd st0 = Except.ok st2 := by
        unfold _safe_run_task
        cases task with
        | none => exact ⟨st0, rfl⟩
        | some tt =>
          by_cases hd : is_trading_day s dd = true
          · exact ⟨(tt st0).1, by simp [hd]⟩
          · exact ⟨st0, by simp [hd]⟩
      rcases hok with ⟨st2, h2⟩
      rcases ih st2 with ⟨stf, hf⟩
      refine ⟨stf, ?_⟩
      simp only [run_ticks, h2]
      exact hf

/-- Witness for C9: in simple mode, a Monday tick runs the raising task
(state advances, no error escapes), a Saturday tick skips it, and a
two-tick loop finishes without error. -/
theorem safe_task_isolation_witness :
    _safe_run_task schedSimple (some taskBoom) ⟨0⟩ 0 = Except.ok (taskBoom 0).1
    ∧ _safe_run_task schedSimple (some taskBoom) ⟨5⟩ 0 = Except.ok 0
    ∧ ∃ stf, run_ticks schedSimple (some taskBoom) [⟨0⟩, ⟨5⟩] 0 = Except.ok stf :=
  ⟨(safe_task_isolation ℕ schedSimple taskBoom ⟨0⟩ 0).1 (by decide),
   (safe_task_isolation ℕ schedSimple taskBoom ⟨5⟩ 0).2.1 (by decide),
   (safe_task_isolation ℕ schedSimple taskBoom ⟨0⟩ 0).2.2 (some taskBoom) [⟨0⟩, ⟨5⟩] 0⟩

/-- C5: `analyze_intraday` returns `none` whenever the retrieved history
has fewer than 20 observations, and a series of at least 20 observations is
not rejected on length: with quote, history and analyzer succeeding it
produces a result. The bound is exactly 20. -/
theorem analyze_min_history (Row : Type) (env : PipelineEnv Row) (now : ℚ)
    (code : String) (raw : List Row) :
    (env.get_analysis_context code = Except.ok (some raw) → raw.length < 20 →
      analyze_intraday env now code = none)
    ∧ (∀ (q : RealtimeQuote) (tr : TrendAnalysisOut),
        env.get_realtime_quote code = Except.ok (some q) →
        env.get_analysis_context code = Except.ok (some raw) →
        20 ≤ raw.length → env.analyze raw code = Except.ok tr →
        (analyze_intraday env now code).isSome = true) := by
  constructor
  · intro hctx hlen
    unfold analyze_intraday analyze_intraday_core
    cases hq : env.get_realtime_quote code with
    | error e => simp
    | ok oq =>
      cases oq with
      | none => simp
      | some q =>
        rw [hctx]
        by_cases he : raw.isEmpty = true <;> simp [he, hlen]
  · intro q tr hq hctx hlen hana
    have hne : raw.isEmpty = false := by
      cases raw with
      | nil => simp at hlen
      | cons a l => rfl
    have hnl : ¬ (raw.length < 20) := not_lt.mpr hlen
    unfold analyze_intraday analyze_intraday_core
    rw [hq, hctx]
    simp [hne, hnl, hana]

/-- Witness for C5: a 19-bar history is rejected; a 20-bar history with the
same quote and analyzer passes the length check and yields a result. -/
theorem analyze_min_history_witness :
    analyze_intraday (envOf 19) 0 "600519" = none
    ∧ (analyze_intraday (envOf 20) 0 "600519").isSome = true :=
  ⟨(analyze_min_history ℕ (envOf 19) 0 "600519" (List.range 19)).1 rfl (by decide),
   (analyze_min_history ℕ (envOf 20) 0 "600519" (List.range 20)).2 qW trW rfl rfl
     (by decide) rfl⟩

/-- `run`'s per-symbol step is a no-op for a symbol whose analysis failed
or returned nothing. -/
theorem runStep_skip (f : SignalFilter) {Row : Type} (env : PipelineEnv Row)
    (now : ℚ) (acc : List IntradayResult × NotifyMap) (code : String)
    (h : analyze_intraday env now code = none) :
    runStep f env now acc code = acc := by
  unfold runStep
  rw [h]

/-- Provenance invariant of `run`'s collection fold: every collected result
comes from the accumulator or from a successfully analysed, filter-accepted
symbol of the remaining list. -/
theorem run_mem_aux (f : SignalFilter) {Row : Type} (env : PipelineEnv Row)
    (now : ℚ) :
    ∀ (codes : List String) (acc : List IntradayResult × NotifyMap)
      (r : IntradayResult),
      r ∈ (codes.foldl (runStep f env now) acc).1 →
      r ∈ acc.1 ∨ ∃ c ∈ codes, analyze_intraday env now c = some r
        ∧ ∃ st : NotifyMap, (should_notify f st now r).1 = true := by
  intro codes
  induction codes with
  | nil => exact fun acc r h => Or.inl h
  | cons code codes ih =>
    intro acc r h
    rw [List.foldl_cons] at h
    rcases ih (runStep f env now acc code) r h with hmem | ⟨c, hc, ha, hst⟩
    · cases hr0 : analyze_intraday env now code with
      | none =>
        rw [runStep_skip f env now acc code hr0] at hmem
        exact Or.inl hmem
      | some r0 =>
        have hstep : runStep f env now acc code
            = if (should_notify f acc.2 now r0).1 = true then
                (acc.1 ++ [r0], (should_notify f acc.2 now r0).2)
              else (acc.1, (should_notify f acc.2 now r0).2) := by
          unfold runStep
          rw [hr0]
        rw [hstep] at hmem
        by_cases hb : (should_notify f acc.2 now r0).1 = true
        · rw [if_pos hb] at hmem
          rcases List.mem_append.mp hmem with h1 | h1
          · exact Or.inl h1
          · have heq : r = r0 := by simpa using h1
            subst heq
            exact Or.inr ⟨code, List.mem_cons_self _ _, hr0, acc.2, hb⟩
        · rw [if_neg hb] at hmem
          exact Or.inl hmem
    · exact Or.inr ⟨c, List.mem_cons_of_mem _ hc, ha, hst⟩

/-- C6: `run` never raises (it is a total function of oracles that may
throw), and its output is drawn only from symbols whose analysis succeeded
and whose result the filter accepted: every returned result originates from
some watchlist symbol with a successful analysis and an accepting filter
call, and removing a failing symbol from the watchlist leaves the batch
output unchanged. -/
theorem run_only_accepted_results (f : SignalFilter) {Row : Type}
    (env : PipelineEnv Row) (now : ℚ) (st0 : NotifyMap) (codes : List String) :
    (∀ r ∈ (run f env now st0 codes).1,
        ∃ c ∈ codes, analyze_intraday env now c = some r
          ∧ ∃ st : NotifyMap, (should_notify f st now r).1 = true)
    ∧ (∀ (l1 : List String) (c : String) (l2 : List String),
        codes = l1 ++ c :: l2 → analyze_intraday env now c = none →
        run f env now st0 codes = run f env now st0 (l1 ++ l2)) := by
  constructor
  · intro r hr
    unfold run at hr
    by_cases hc : codes = []
    · rw [if_pos hc] at hr
      simp at hr
    · rw [if_neg hc] at hr
      rcases run_mem_aux f env now codes ([], st0) r hr with h1 | h2
      · simp at h1
      · exact h2
  · intro l1 c l2 hdec hnone
    subst hdec
    unfold run
    by_cases h12 : l1 ++ l2 = []
    · rcases List.append_eq_nil.mp h12 with ⟨h1, h2⟩
      subst h1
      subst h2
      simp only [List.nil_append]
      rw [if_neg (List.cons_ne_nil c []), if_pos trivial, List.foldl_cons,
        runStep_skip f env now ([], st0) c hnone, List.foldl_nil]
    · rw [if_neg (by simp : ¬ l1 ++ c :: l2 = []), if_neg h12,
        List.foldl_append, List.foldl_append, List.foldl_cons,
        runStep_skip f env now _ c hnone]

/-- Witness for C6: on a two-symbol watchlist where the second symbol's
quote retrieval throws, the returned result comes from the first symbol,
and dropping the failing symbol leaves the batch unchanged. -/
theorem run_only_accepted_results_witness :
    (∃ c ∈ ["600519", "000002"], analyze_intraday envPart (0 : ℚ) c = some resultW
        ∧ ∃ st : NotifyMap, (should_notify defaultFilter st 0 resultW).1 = true)
    ∧ run defaultFilter envPart 0 emptyNotifyMap ["600519", "000002"]
        = run defaultFilter envPart 0 emptyNotifyMap ["600519"] :=
  ⟨(run_only_accepted_results defaultFilter envPart 0 emptyNotifyMap
      ["600519", "000002"]).1 resultW (by decide),
   (run_only_accepted_results defaultFilter envPart 0 emptyNotifyMap
      ["600519", "000002"]).2 ["600519"] "000002" [] rfl rfl⟩

end StockCore
